/-
Verification of the sqlrepl wire protocol and backend abstraction layer.

Shallow embedding of `internal/database` (driver validation, `Connect`,
`ExecuteQuery`, `preQuery`, `postQuery`) and of `internal/client.Handle`
(session bootstrap and the per-connection command loop).

Modelling conventions:
* Go strings (byte slices) are modelled as `List Char` (`GoStr`); all inputs
  of interest are ASCII, where Go's byte indexing and `strings.ToUpper` /
  `strings.ToLower` agree with per-`Char` maps.
* The `database/sql` driver is an oracle (`DbBehavior`): the outcomes of
  `QueryContext`, `rows.Columns`, each `rows.Next`+`rows.Scan` step,
  `rows.Err`, and the Oracle `ReadDbmsOutput` drain are environment data.
  A successful scan fills exactly `len(columns)` slots (Go allocates
  `values := make([]any, len(columns))`), so a scan outcome carries a
  slot-indexed assignment `Nat → Option GoStr`; `none` models a SQL NULL,
  `some s` models a non-null value already rendered by `fmt.Sprintf("%v", _)`.
* `json.Unmarshal` and `proto.Marshal` are abstracted: decoding is an oracle
  (`Option DBParams`), marshalling a total parameter `QueryResult → List Nat`
  (for a well-formed message `proto.Marshal` does not fail).
* `net.Conn` I/O is an environment: each read yields a line, EOF, or an I/O
  error; each write either succeeds or fails, as directed by the environment.
-/
import Mathlib

set_option autoImplicit false

namespace Sqlrepl

/-- Go strings modelled as character lists (ASCII-faithful byte slices). -/
abbrev GoStr := List Char

/-- `strings.ToLower`, restricted to ASCII where it is a per-character map. -/
def goToLower (s : GoStr) : GoStr := s.map Char.toLower

/-- `strings.ToUpper`, restricted to ASCII where it is a per-character map. -/
def goToUpper (s : GoStr) : GoStr := s.map Char.toUpper

/-! ## Driver constants (`internal/database`, const block) -/

def DriverUnknown : Nat := 0
def DriverOracle : Nat := 1
def DriverMySQL : Nat := 2
def DriverPostgreSQL : Nat := 3
def DriverSQLite : Nat := 4
def DriverSqlServer : Nat := 5

/-- The `dbDriverTypes` map: lowercase engine name to driver constant. -/
def dbDriverTypes (s : GoStr) : Option Nat :=
  if s = "oracle".data then some DriverOracle
  else if s = "mysql".data then some DriverMySQL
  else if s = "postgres".data then some DriverPostgreSQL
  else if s = "sqlite".data then some DriverSQLite
  else if s = "sqlserver".data then some DriverSqlServer
  else none

/-- `ValidateDBType`: lowercases the name, looks it up in `dbDriverTypes`;
on a miss returns `DriverUnknown` together with the error
`"invalid database type: <dbType>"` (we model the `(int, error)` pair as
`Except`, the `DriverUnknown` component being dead on the error path). -/
def ValidateDBType (dbType : GoStr) : Except GoStr Nat :=
  match dbDriverTypes (goToLower dbType) with
  | some d => .ok d
  | none => .error ("invalid database type: ".data ++ dbType)

/-! ## Connection and `Connect` -/

/-- The `Connection` struct. The `*sql.DB` handle and the `context.Context`
are abstracted to presence flags (`none` = Go `nil`, the zero value). -/
structure Connection where
  db : Option Unit
  dbType : Nat
  context : Option Unit
deriving DecidableEq

/-- The zero value `database.Connection{}`. -/
def Connection.zero : Connection := ⟨none, DriverUnknown, none⟩

/-- Environment for one `Connect` call: outcomes of `sql.Open` and
`db.Ping` (error values carry the driver's message). -/
structure ConnectEnv where
  openRes : Except GoStr Unit
  pingRes : Except GoStr Unit

/-- Result of a `Connect` call: the receiver's final field values, the
returned error, and whether `sql.Open` was reached. -/
structure ConnectOutcome where
  conn : Connection
  res : Except GoStr Unit
  openAttempted : Bool

/-- `Connection.Connect`: validates the engine name, opens (pool limits
`SetMaxOpenConns(10)` / `SetMaxIdleConns(5)` are configuration on the
abstracted handle and are not further modelled), pings, and only after a
successful ping assigns `conn.db`, `conn.dbType`, `conn.context`.  The
Oracle init hook (`SET SQLBLANKLINES ON`, `EnableDbmsOutput`) runs after
the assignments and does not affect the receiver's fields.  Every failure
path returns before any field assignment. -/
def Connect (conn : Connection) (dbType : GoStr) (_dbConnString : GoStr)
    (env : ConnectEnv) : ConnectOutcome :=
  match ValidateDBType dbType with
  | .error e => ⟨conn, .error e, false⟩
  | .ok driver =>
    match env.openRes with
    | .error e => ⟨conn, .error ("failed to open database: ".data ++ e), true⟩
    | .ok _ =>
      match env.pingRes with
      | .error e => ⟨conn, .error ("failed to ping database: ".data ++ e), true⟩
      | .ok _ => ⟨⟨some (), driver, some ()⟩, .ok (), true⟩

/-! ## Query results and `ExecuteQuery` -/

/-- The `protocol.QueryResult` message: columns, rows (each a value list),
message (engine side-channel output) and error. -/
structure QueryResult where
  columns : List GoStr
  rows : List (List GoStr)
  message : GoStr
  error : GoStr
deriving DecidableEq

/-- Driver behaviour for one `ExecuteQuery` call.  `queryRes` consumes the
pre-processed statement text handed to `QueryContext`.  Each entry of
`rowEvents` is one `rows.Next`/`rows.Scan` round: an error aborts the scan
loop, a success is the slot assignment the driver scanned. -/
structure DbBehavior where
  queryRes : GoStr → Except GoStr Unit
  columnsRes : Except GoStr (List GoStr)
  rowEvents : List (Except GoStr (Nat → Option GoStr))
  rowsErr : Option GoStr
  drainRes : Except GoStr GoStr

/-- Rendering of one scanned slot: Go writes `"<nil>"` for a nil value and
`fmt.Sprintf("%v", val)` (already folded into the oracle) otherwise. -/
def renderVal : Option GoStr → GoStr
  | none => "<nil>".data
  | some s => s

/-- Materialisation of one scanned row:
`rowValues := make([]string, len(columns))` filled slot by slot. -/
def scanRow (ncols : Nat) (f : Nat → Option GoStr) : List GoStr :=
  (List.range ncols).map (fun i => renderVal (f i))

/-- The `for rows.Next() { ... rows.Scan ... }` loop: returns the rows
materialised before any scan error, and the first scan error if one
occurred (in Go the function returns immediately on it). -/
def scanLoop (ncols : Nat) :
    List (Except GoStr (Nat → Option GoStr)) → List (List GoStr) × Option GoStr
  | [] => ([], none)
  | .error e :: _ => ([], some e)
  | .ok f :: rest =>
    (scanRow ncols f :: (scanLoop ncols rest).1, (scanLoop ncols rest).2)

/-- `endsWithEND q` is the guard of `preQuery`'s first branch:
`len(q) > 3 && strings.ToUpper(q[len(q)-3:]) == "END"`. -/
def endsWithEND (q : GoStr) : Prop :=
  3 < q.length ∧ goToUpper (q.drop (q.length - 3)) = "END".data

instance (q : GoStr) : Decidable (endsWithEND q) := by
  unfold endsWithEND; infer_instance

/-- `Connection.preQuery`: the engine-specific statement pre-processing
hook.  For Oracle: a statement whose last three bytes uppercase to `END`
(and which is longer than 3 bytes) gets a semicolon appended; otherwise a
statement longer than 1 byte whose last byte is `;` loses that byte;
otherwise, and for every other engine, the statement is unchanged. -/
def preQuery (dbType : Nat) (q : GoStr) : GoStr :=
  if dbType = DriverOracle then
    if endsWithEND q then q ++ ";".data
    else if 1 < q.length ∧ q.getLast? = some ';' then q.dropLast
    else q
  else q

/-- `Connection.postQuery`: for Oracle, drains DBMS_OUTPUT into
`result.Message`; a drain failure is `log.Fatalf`, i.e. process abort,
modelled as `none`.  Other engines: no-op. -/
def postQuery (dbType : Nat) (beh : DbBehavior) (result : QueryResult) :
    Option QueryResult :=
  if dbType = DriverOracle then
    match beh.drainRes with
    | .error _ => none
    | .ok msg => some { result with message := msg }
  else some result

/-- `Connection.ExecuteQuery`: applies `preQuery`, runs the statement under
the driver oracle, materialises all rows, then `postQuery`.  `none` is the
(Oracle-only) fatal drain abort; every other path returns a result, with
all failures encoded in its `error` field.  The 20-second timeout context
surfaces only as driver errors, already covered by the oracle. -/
def executeQuery (dbType : Nat) (beh : DbBehavior) (query : GoStr) :
    Option QueryResult :=
  match beh.queryRes (preQuery dbType query) with
  | .error e => some ⟨[], [], [], e⟩
  | .ok _ =>
    match beh.columnsRes with
    | .error e => some ⟨[], [], [], e⟩
    | .ok columns =>
      match (scanLoop columns.length beh.rowEvents).2 with
      | some e =>
        some ⟨columns, (scanLoop columns.length beh.rowEvents).1, [], e⟩
      | none =>
        match beh.rowsErr with
        | some e =>
          some ⟨columns, (scanLoop columns.length beh.rowEvents).1, [], e⟩
        | none =>
          postQuery dbType beh
            ⟨columns, (scanLoop columns.length beh.rowEvents).1, [], []⟩

/-! ## The server-side connection handler (`internal/client.Handle`) -/

/-- The `protocol.DBParams` message decoded from the first protocol line. -/
structure DBParams where
  dbtype : GoStr
  connstring : GoStr

/-- Outcome of one `reader.ReadString('\n')` call.  A successful `line`
always contains its trailing `'\n'` (Go returns data up to and including
the delimiter); on any error `Handle` discards the partial data. -/
inductive ReadResult where
  | line (s : GoStr)
  | eof
  | ioErr
deriving DecidableEq

/-- Environment for one iteration of the command loop: the read outcome,
the driver behaviour should a statement be executed, and the outcomes of
the (at most two) `conn.Write` calls of the iteration — the 4-byte length
write and the payload write. -/
structure StepEnv where
  read : ReadResult
  beh : DbBehavior
  writeLenOk : Bool
  writeBodyOk : Bool

/-- Observable actions of `Handle`.  `wroteAttempt bs ok` is a
`conn.Write(bs)` call and its outcome; `execQuery stmt` is a
`dbconn.ExecuteQuery(stmt)` call (the only backend operation of the
loop); `sentErrorEnvelope` is a bootstrap `sendError`; `fatalAbort` is
the `log.Fatalf` process abort; the `closed*` events are the handler
returning (gracefully on EOF, otherwise after logging an I/O error). -/
inductive Event where
  | wroteAttempt (bytes : List Nat) (ok : Bool)
  | execQuery (stmt : GoStr)
  | sentErrorEnvelope (msg : GoStr)
  | fatalAbort
  | closedGraceful
  | closedError
  | paramsReadError
deriving DecidableEq

/-- `binary.BigEndian.PutUint32` of `uint32(n)`: the four big-endian bytes
of `n` modulo `2^32`. -/
def be32 (n : Nat) : List Nat :=
  [n / 2 ^ 24 % 256, n / 2 ^ 16 % 256, n / 2 ^ 8 % 256, n % 256]

/-- The ASCII Group Separator `'\x1D'`, the batch-sync marker. -/
def gsChar : Char := Char.ofNat 29

/-- The re-serialisation `Handle` performs on a query result before
marshalling: `protoRow.Values := make([]string, len(result.Columns))`,
filled with `fmt.Sprintf("%v", row.Values[i])` for each column index
(identity on strings; `row.Values[i]` is in bounds for every result
`ExecuteQuery` produces, so the `getD` default is never consulted). -/
def reserialize (r : QueryResult) : QueryResult :=
  { columns := r.columns
    rows := r.rows.map (fun row =>
      (List.range r.columns.length).map (fun i => row.getD i []))
    message := r.message
    error := r.error }

/-- One iteration of `Handle`'s command loop: the events it emits and
whether the loop continues.  A line whose first byte is `'\x1D'` is the
batch-sync branch: write `be32 1`, and — only if that write succeeded —
write the 1-byte payload, whose own error is *ignored* (`conn.Write(bytes)`
with no error check) and the loop continues.  Any other line loses its
trailing byte (the newline) and is executed as a statement; the marshalled
response is written behind its length prefix, and a failure of either
checked write terminates the loop. -/
def runStep (dbType : Nat) (marshal : QueryResult → List Nat) (env : StepEnv) :
    List Event × Bool :=
  match env.read with
  | .eof => ([.closedGraceful], false)
  | .ioErr => ([.closedError], false)
  | .line q =>
    if q.head? = some gsChar then
      if env.writeLenOk then
        ([.wroteAttempt (be32 1) true, .wroteAttempt [29] env.writeBodyOk], true)
      else
        ([.wroteAttempt (be32 1) false, .closedError], false)
    else
      match executeQuery dbType env.beh q.dropLast with
      | none => ([.execQuery q.dropLast, .fatalAbort], false)
      | some result =>
        if env.writeLenOk then
          if env.writeBodyOk then
            ([.execQuery q.dropLast,
              .wroteAttempt (be32 (marshal (reserialize result)).length) true,
              .wroteAttempt (marshal (reserialize result)) true], true)
          else
            ([.execQuery q.dropLast,
              .wroteAttempt (be32 (marshal (reserialize result)).length) true,
              .wroteAttempt (marshal (reserialize result)) false,
              .closedError], false)
        else
          ([.execQuery q.dropLast,
            .wroteAttempt (be32 (marshal (reserialize result)).length) false,
            .closedError], false)

/-- The command loop (`for { ... }` in `Handle`), run against a finite
prefix of the environment's per-iteration choices. -/
def runLoop (dbType : Nat) (marshal : QueryResult → List Nat) :
    List StepEnv → List Event
  | [] => []
  | env :: rest =>
    (runStep dbType marshal env).1 ++
      (if (runStep dbType marshal env).2 then runLoop dbType marshal rest else [])

/-- Environment for the session bootstrap: the outcome of the parameter
line read, the `json.Unmarshal` outcome, and the connector environment. -/
structure BootEnv where
  paramsRead : ReadResult
  decodeRes : Option DBParams
  connectEnv : ConnectEnv

/-- `Handle`, start to finish: read the parameter line (any read error,
EOF included, closes with no response); decode it (failure sends one
`"Invalid connection parameters"` error envelope and closes); connect
(failure sends one `"Failed to connect to database"` error envelope and
closes); on success enter the command loop with the established session's
engine identifier. -/
def handleTrace (marshal : QueryResult → List Nat) (benv : BootEnv)
    (steps : List StepEnv) : List Event :=
  match benv.paramsRead with
  | .eof => [.paramsReadError]
  | .ioErr => [.paramsReadError]
  | .line _ =>
    match benv.decodeRes with
    | none => [.sentErrorEnvelope "Invalid connection parameters".data]
    | some params =>
      match (Connect Connection.zero params.dbtype params.connstring
          benv.connectEnv).res with
      | .error _ => [.sentErrorEnvelope "Failed to connect to database".data]
      | .ok _ =>
        runLoop (Connect Connection.zero params.dbtype params.connstring
          benv.connectEnv).conn.dbType marshal steps

/-- The bytes that actually reached the wire in a trace: the payloads of
the successful write attempts, in order. -/
def writtenBytes : List Event → List Nat
  | [] => []
  | .wroteAttempt bs true :: rest => bs ++ writtenBytes rest
  | _ :: rest => writtenBytes rest

/-! ## Concrete instances used by counterexamples and witnesses -/

/-- The five valid engine identifiers (keys of `dbDriverTypes`). -/
def validEngineNames : List GoStr :=
  ["oracle".data, "mysql".data, "postgres".data, "sqlite".data, "sqlserver".data]

/-- The five driver constants a successful validation can produce. -/
def engineDrivers : List Nat :=
  [DriverOracle, DriverMySQL, DriverPostgreSQL, DriverSQLite, DriverSqlServer]

/-- A driver that accepts the statement and returns no columns and no rows. -/
def trivBehavior : DbBehavior :=
  ⟨fun _ => .ok (), .ok [], [], none, .ok []⟩

/-- A driver whose `QueryContext` fails. -/
def qErrBehavior : DbBehavior :=
  ⟨fun _ => .error "boom".data, .ok [], [], none, .ok []⟩

/-- A driver whose `rows.Columns()` fails. -/
def colErrBehavior : DbBehavior :=
  ⟨fun _ => .ok (), .error "no columns".data, [], none, .ok []⟩

/-- A driver that scans one row successfully and fails on the second. -/
def scanFailBehavior : DbBehavior :=
  ⟨fun _ => .ok (), .ok ["a".data],
    [.ok (fun _ => some "1".data), .error "scan failed".data], none, .ok []⟩

/-- A driver that scans one row and then reports an `rows.Err()` failure. -/
def iterErrBehavior : DbBehavior :=
  ⟨fun _ => .ok (), .ok ["a".data],
    [.ok (fun _ => some "1".data)], some "iteration failed".data, .ok []⟩

/-- A driver that returns one row holding a single non-null value. -/
def okRowBehavior : DbBehavior :=
  ⟨fun _ => .ok (), .ok ["a".data], [.ok (fun _ => some "1".data)], none, .ok []⟩

/-- A driver that returns one row holding a single SQL NULL. -/
def nullRowBehavior : DbBehavior :=
  ⟨fun _ => .ok (), .ok ["a".data], [.ok (fun _ => none)], none, .ok []⟩

/-- A trivial marshaller (the claims below hold for every marshaller). -/
def marshal0 : QueryResult → List Nat := fun _ => []

/-- A batch-sync line whose 1-byte payload write fails. -/
def syncFailStep : StepEnv := ⟨.line [gsChar, '\n'], trivBehavior, true, false⟩

/-- A batch-sync line whose writes both succeed. -/
def syncOkStep : StepEnv := ⟨.line [gsChar, '\n'], trivBehavior, true, true⟩

/-- An ordinary statement line with all writes succeeding. -/
def stmtStep : StepEnv := ⟨.line ['S', '\n'], trivBehavior, true, true⟩

/-- A connector environment where `sql.Open` and `db.Ping` both succeed. -/
def envOK : ConnectEnv := ⟨.ok (), .ok ()⟩

/-! ## Helper lemmas about the scan loop and `ExecuteQuery` -/

theorem scanRow_length (n : Nat) (f : Nat → Option GoStr) :
    (scanRow n f).length = n := by
  simp [scanRow]

theorem scanLoop_fst_mem (n : Nat)
    (evs : List (Except GoStr (Nat → Option GoStr))) (row : List GoStr)
    (h : row ∈ (scanLoop n evs).1) :
    ∃ f, Except.ok f ∈ evs ∧ row = scanRow n f := by
  induction evs with
  | nil => simp [scanLoop] at h
  | cons ev rest ih =>
    cases ev with
    | error e => simp [scanLoop] at h
    | ok f =>
      rw [scanLoop] at h
      rcases List.mem_cons.mp h with h | h
      · exact ⟨f, List.mem_cons_self _ _, h⟩
      · obtain ⟨g, hg, hrow⟩ := ih h
        exact ⟨g, List.mem_cons_of_mem _ hg, hrow⟩

theorem scanLoop_map_ok (n : Nat) (pre : List (Nat → Option GoStr)) :
    scanLoop n (pre.map Except.ok) = (pre.map (scanRow n), none) := by
  induction pre with
  | nil => rfl
  | cons f rest ih => simp [scanLoop, ih]

theorem scanLoop_map_ok_append_error (n : Nat)
    (pre : List (Nat → Option GoStr)) (e : GoStr)
    (suf : List (Except GoStr (Nat → Option GoStr))) :
    scanLoop n (pre.map Except.ok ++ .error e :: suf) =
      (pre.map (scanRow n), some e) := by
  induction pre with
  | nil => rfl
  | cons f rest ih => simp [scanLoop, ih]

/-- Shape of every result `ExecuteQuery` returns: either both columns and
rows are empty (query or column-retrieval failure), or the columns are the
retrieved names and the rows are exactly what the scan loop materialised. -/
theorem executeQuery_shape (dbType : Nat) (beh : DbBehavior) (q : GoStr)
    (r : QueryResult) (h : executeQuery dbType beh q = some r) :
    (r.columns = [] ∧ r.rows = []) ∨
    ∃ cols, beh.columnsRes = .ok cols ∧ r.columns = cols ∧
      r.rows = (scanLoop cols.length beh.rowEvents).1 := by
  unfold executeQuery at h
  split at h
  · cases h; exact Or.inl ⟨rfl, rfl⟩
  · split at h
    · cases h; exact Or.inl ⟨rfl, rfl⟩
    · rename_i cols heq
      refine Or.inr ⟨cols, heq, ?_⟩
      split at h
      · cases h; exact ⟨rfl, rfl⟩
      · split at h
        · cases h; exact ⟨rfl, rfl⟩
        · unfold postQuery at h
          split at h
          · split at h
            · cases h
            · cases h; exact ⟨rfl, rfl⟩
          · cases h; exact ⟨rfl, rfl⟩

/-! ## C1: error handling in `ExecuteQuery` -/

/-- C1 (counterexample): the claim "a returned result never contains any
row when its error field is non-empty, and every failing execution yields
empty columns and rows" is false: when the second row's `rows.Scan` fails,
`ExecuteQuery` returns a result with a non-empty error field that still
carries the retrieved column names and the first, successfully scanned
row. -/
theorem c1_counterexample :
    ¬ (∀ r, executeQuery DriverSQLite scanFailBehavior "q".data = some r →
        r.error ≠ [] → r.rows = [] ∧ r.columns = []) := by
  intro h
  have hr := h ⟨["a".data], [["1".data]], [], "scan failed".data⟩
    (by decide) (by decide)
  exact absurd hr.1 (by decide)

/-- C1 (amended): every failing statement execution populates the result's
error field with the driver's error message; columns and rows are both
empty when the failure is the query call or column retrieval, while a
row-scan or row-iteration failure leaves the retrieved column names and
exactly the rows fully scanned before the failure in the result. -/
theorem c1_error_paths (dbType : Nat) (beh : DbBehavior) (q : GoStr) :
    (∀ e, beh.queryRes (preQuery dbType q) = .error e →
      executeQuery dbType beh q = some ⟨[], [], [], e⟩) ∧
    (∀ u e, beh.queryRes (preQuery dbType q) = .ok u →
      beh.columnsRes = .error e →
      executeQuery dbType beh q = some ⟨[], [], [], e⟩) ∧
    (∀ (u : Unit) (cols : List GoStr) (pre : List (Nat → Option GoStr))
        (e : GoStr) (suf : List (Except GoStr (Nat → Option GoStr))),
      beh.queryRes (preQuery dbType q) = .ok u →
      beh.columnsRes = .ok cols →
      beh.rowEvents = pre.map Except.ok ++ .error e :: suf →
      executeQuery dbType beh q =
        some ⟨cols, pre.map (scanRow cols.length), [], e⟩) ∧
    (∀ (u : Unit) (cols : List GoStr) (pre : List (Nat → Option GoStr))
        (e : GoStr),
      beh.queryRes (preQuery dbType q) = .ok u →
      beh.columnsRes = .ok cols → beh.rowEvents = pre.map Except.ok →
      beh.rowsErr = some e →
      executeQuery dbType beh q =
        some ⟨cols, pre.map (scanRow cols.length), [], e⟩) := by
  refine ⟨?_, ?_, ?_, ?_⟩
  · intro e hq
    simp [executeQuery, hq]
  · intro u e hq hc
    simp [executeQuery, hq, hc]
  · intro u cols pre e suf hq hc hev
    simp [executeQuery, hq, hc, hev, scanLoop_map_ok_append_error]
  · intro u cols pre e hq hc hev hre
    simp [executeQuery, hq, hc, hev, hre, scanLoop_map_ok]

/-- C1 (witness): the four error paths of `c1_error_paths`, each exercised
on a concrete driver behaviour. -/
theorem c1_error_paths_witness :
    executeQuery DriverSQLite qErrBehavior "SELECT 1".data =
      some ⟨[], [], [], "boom".data⟩ ∧
    executeQuery DriverSQLite colErrBehavior "SELECT 1".data =
      some ⟨[], [], [], "no columns".data⟩ ∧
    executeQuery DriverSQLite scanFailBehavior "SELECT 1".data =
      some ⟨["a".data], [["1".data]], [], "scan failed".data⟩ ∧
    executeQuery DriverSQLite iterErrBehavior "SELECT 1".data =
      some ⟨["a".data], [["1".data]], [], "iteration failed".data⟩ :=
  ⟨(c1_error_paths DriverSQLite qErrBehavior "SELECT 1".data).1
      "boom".data rfl,
   (c1_error_paths DriverSQLite colErrBehavior "SELECT 1".data).2.1
      () "no columns".data rfl rfl,
   (c1_error_paths DriverSQLite scanFailBehavior "SELECT 1".data).2.2.1
      () ["a".data] [fun _ => some "1".data] "scan failed".data [] rfl rfl rfl,
   (c1_error_paths DriverSQLite iterErrBehavior "SELECT 1".data).2.2.2
      () ["a".data] [fun _ => some "1".data] "iteration failed".data
      rfl rfl rfl rfl⟩

/-! ## C2: the Oracle statement pre-processing hook -/

/-- C2 (counterexample): the claim says that a statement that does not end
in `END` but ends in a semicolon gets exactly one trailing semicolon
stripped; on the one-byte input `";"` the claim therefore predicts the
empty statement, but the code's guard `len(q) > 1` leaves `";"`
unchanged.  (The claim's "trimmed" and "token" qualifications also do not
appear in the code, which tests the raw last three bytes.) -/
theorem c2_counterexample :
    preQuery DriverOracle [';'] = [';'] ∧ preQuery DriverOracle [';'] ≠ [] := by
  decide

/-- C2 (amended): for every Oracle session, `preQuery` transforms the raw
(untrimmed) statement as follows: if it is longer than 3 bytes and its
last three bytes uppercase to `END`, exactly one semicolon is appended;
otherwise if it is longer than 1 byte and ends in a semicolon, exactly one
trailing semicolon is stripped; otherwise — including the lone `";"` — it
is unchanged.  For every non-Oracle engine the statement is unchanged. -/
theorem c2_preQuery_oracle (q : GoStr) :
    (endsWithEND q → preQuery DriverOracle q = q ++ [';']) ∧
    (¬ endsWithEND q → 1 < q.length → q.getLast? = some ';' →
      preQuery DriverOracle q ++ [';'] = q) ∧
    (¬ endsWithEND q → ¬ (1 < q.length ∧ q.getLast? = some ';') →
      preQuery DriverOracle q = q) ∧
    (∀ dbType, dbType ≠ DriverOracle → preQuery dbType q = q) := by
  refine ⟨?_, ?_, ?_, ?_⟩
  · intro hEnd
    simp [preQuery, hEnd]
  · intro hEnd hlen hlast
    have hne : q ≠ [] := by
      intro h; rw [h] at hlast; simp at hlast
    have hdrop : preQuery DriverOracle q = q.dropLast := by
      simp [preQuery, hEnd, hlen, hlast]
    rw [hdrop]
    have hlast' : q.getLast hne = ';' := by
      have := List.getLast?_eq_getLast q hne
      rw [this] at hlast
      exact (Option.some.injEq _ _).mp hlast.symm |>.symm
    calc q.dropLast ++ [';'] = q.dropLast ++ [q.getLast hne] := by rw [hlast']
      _ = q := List.dropLast_append_getLast hne
  · intro hEnd hrest
    simp [preQuery, hEnd, hrest]
  · intro dbType hdb
    simp [preQuery, hdb]

/-- C2 (witness): the four branches of `c2_preQuery_oracle` on concrete
statements: a PL/SQL block ending in `end` gains a semicolon, `SELECT 1;`
loses its semicolon, `SELECT 1` and the lone `";"` are unchanged, and
MySQL statements pass through untouched. -/
theorem c2_preQuery_oracle_witness :
    preQuery DriverOracle "begin null; end".data = "begin null; end;".data ∧
    preQuery DriverOracle "SELECT 1;".data ++ [';'] = "SELECT 1;".data ∧
    preQuery DriverOracle "SELECT 1".data = "SELECT 1".data ∧
    preQuery DriverMySQL "SELECT 1;".data = "SELECT 1;".data :=
  ⟨(c2_preQuery_oracle "begin null; end".data).1 (by decide),
   (c2_preQuery_oracle "SELECT 1;".data).2.1 (by decide) (by decide) (by decide),
   (c2_preQuery_oracle "SELECT 1".data).2.2.1 (by decide) (by decide),
   (c2_preQuery_oracle "SELECT 1;".data).2.2.2 DriverMySQL (by decide)⟩

/-! ## C8: rendering of SQL NULL values -/

/-- C8 (counterexample): a null column value is indeed rendered as the
literal token `<nil>`, but that token has 5 characters, not 4 as the claim
states. -/
theorem c8_counterexample :
    renderVal none = "<nil>".data ∧ (renderVal none).length = 5 ∧
    ¬ (renderVal none).length = 4 := by
  decide

/-- C8 (amended): for every scanned row of every result `ExecuteQuery`
returns, across all engines, the row is the materialisation of one
successful driver scan, and every column position the driver reported as
null holds the literal 5-character string `<nil>`. -/
theorem c8_null_render (dbType : Nat) (beh : DbBehavior) (q : GoStr)
    (r : QueryResult) (h : executeQuery dbType beh q = some r)
    (row : List GoStr) (hrow : row ∈ r.rows) :
    ∃ f, Except.ok f ∈ beh.rowEvents ∧ row = scanRow r.columns.length f ∧
      ∀ i, i < r.columns.length → f i = none →
        row.get? i = some "<nil>".data := by
  rcases executeQuery_shape dbType beh q r h with ⟨_, hrows⟩ | ⟨cols, _, hcols, hrows⟩
  · rw [hrows] at hrow; simp at hrow
  · rw [hrows] at hrow
    obtain ⟨f, hf, hrowEq⟩ := scanLoop_fst_mem cols.length beh.rowEvents row hrow
    refine ⟨f, hf, by rw [hcols]; exact hrowEq, ?_⟩
    intro i hi hnull
    rw [hrowEq, scanRow, List.get?_map, List.get?_range (by rwa [hcols] at hi),
      Option.map_some']
    rw [hnull]
    rfl

/-- C8 (witness): a concrete single-column, single-row result whose only
value was NULL renders that position as `<nil>`. -/
theorem c8_null_render_witness :
    ∃ f, Except.ok f ∈ nullRowBehavior.rowEvents ∧
      ["<nil>".data] = scanRow (["a".data] : List GoStr).length f ∧
      ∀ i, i < (["a".data] : List GoStr).length → f i = none →
        (["<nil>".data] : List GoStr).get? i = some "<nil>".data :=
  c8_null_render DriverPostgreSQL nullRowBehavior "SELECT NULL".data
    ⟨["a".data], [["<nil>".data]], [], []⟩ (by decide) ["<nil>".data] (by decide)

/-! ## C5: row width invariant -/

/-- C5: for every successful statement execution (empty error field),
every row of the result `ExecuteQuery` built has exactly as many values as
the result has columns, and the same holds for every row of the
re-serialised envelope the server loop builds from it.  (The success
premise is the claim's wording; the invariant in fact holds on the error
paths as well, every materialised row having been allocated with
`make([]string, len(columns))`.) -/
theorem c5_row_width (dbType : Nat) (beh : DbBehavior) (q : GoStr)
    (r : QueryResult) (h : executeQuery dbType beh q = some r)
    (_hok : r.error = []) :
    (∀ row ∈ r.rows, row.length = r.columns.length) ∧
    (∀ prow ∈ (reserialize r).rows,
      prow.length = (reserialize r).columns.length) := by
  constructor
  · intro row hrow
    rcases executeQuery_shape dbType beh q r h with
      ⟨_, hrows⟩ | ⟨cols, _, hcols, hrows⟩
    · rw [hrows] at hrow; simp at hrow
    · rw [hrows] at hrow
      obtain ⟨f, _, hrowEq⟩ := scanLoop_fst_mem cols.length beh.rowEvents row hrow
      rw [hrowEq, scanRow_length, hcols]
  · intro prow hprow
    simp only [reserialize, List.mem_map] at hprow
    obtain ⟨row, _, hEq⟩ := hprow
    simp [reserialize, ← hEq]

/-- C5 (witness): a concrete successful single-column execution: the one
row has one value, both in the executor's result and after the server
loop's re-serialisation. -/
theorem c5_row_width_witness :
    (∀ row ∈ (⟨["a".data], [["1".data]], [], []⟩ : QueryResult).rows,
      row.length = (⟨["a".data], [["1".data]], [], []⟩ : QueryResult).columns.length) ∧
    (∀ prow ∈ (reserialize ⟨["a".data], [["1".data]], [], []⟩).rows,
      prow.length = (reserialize ⟨["a".data], [["1".data]], [], []⟩).columns.length) :=
  c5_row_width DriverSQLite okRowBehavior "SELECT 1".data
    ⟨["a".data], [["1".data]], [], []⟩ (by decide) rfl

/-! ## C3: the batch-sync frame -/

/-- C3: for every line whose first byte is `0x1D`, the command loop writes
exactly the five bytes `00 00 00 01 1D` (the 4-byte big-endian length
prefix with value 1 followed by the single byte `0x1D`), performs no
backend operation whatever the backend's state, and keeps the connection
open.  (Stated under the premise that both writes succeed; the 1-byte
payload write's outcome is not even inspected by the code.) -/
theorem c3_batch_sync (dbType : Nat) (marshal : QueryResult → List Nat)
    (env : StepEnv) (q : GoStr) (hr : env.read = .line q)
    (hq : q.head? = some gsChar) (h1 : env.writeLenOk = true)
    (h2 : env.writeBodyOk = true) :
    writtenBytes (runStep dbType marshal env).1 = [0, 0, 0, 1, 29] ∧
    (∀ s, Event.execQuery s ∉ (runStep dbType marshal env).1) ∧
    (runStep dbType marshal env).2 = true := by
  obtain ⟨read, beh, wl, wb⟩ := env
  simp only at hr h1 h2
  subst hr h1 h2
  refine ⟨?_, ?_, ?_⟩
  · simp [runStep, hq, writtenBytes, be32]
  · intro s
    simp [runStep, hq]
  · simp [runStep, hq]

/-- C3 (witness): the batch-sync step on a concrete line `"\x1D\n"` with
both writes succeeding. -/
theorem c3_batch_sync_witness :
    writtenBytes (runStep DriverSQLite marshal0 syncOkStep).1 = [0, 0, 0, 1, 29] ∧
    (∀ s, Event.execQuery s ∉ (runStep DriverSQLite marshal0 syncOkStep).1) ∧
    (runStep DriverSQLite marshal0 syncOkStep).2 = true :=
  c3_batch_sync DriverSQLite marshal0 syncOkStep [gsChar, '\n']
    rfl (by decide) rfl rfl

/-! ## C10: command classification in the server loop -/

/-- C10: classification of a line depends only on its first byte.  A line
whose first byte is `0x1D` is dispatched as batch-sync — the step's
behaviour is identical for any two such lines under the same write
outcomes, whatever their remaining bytes and whatever the backend would
do, and no backend execution happens.  Every other line, the bare newline
included, is executed as a statement after stripping exactly its trailing
newline (the empty line becoming the empty statement). -/
theorem c10_classification (dbType : Nat) (marshal : QueryResult → List Nat) :
    (∀ env env' q q', env.read = .line q → env'.read = .line q' →
      q.head? = some gsChar → q'.head? = some gsChar →
      env.writeLenOk = env'.writeLenOk → env.writeBodyOk = env'.writeBodyOk →
      runStep dbType marshal env = runStep dbType marshal env') ∧
    (∀ env q, env.read = .line q → q.head? = some gsChar →
      ∀ s, Event.execQuery s ∉ (runStep dbType marshal env).1) ∧
    (∀ env s, env.read = .line (s ++ ['\n']) →
      (s ++ ['\n']).head? ≠ some gsChar →
      ∃ evs, (runStep dbType marshal env).1 = Event.execQuery s :: evs) := by
  refine ⟨?_, ?_, ?_⟩
  · intro env env' q q' hr hr' hq hq' hwl hwb
    obtain ⟨read, beh, wl, wb⟩ := env
    obtain ⟨read', beh', wl', wb'⟩ := env'
    simp only at hr hr' hwl hwb
    subst hr hr' hwl hwb
    simp [runStep, hq, hq']
  · intro env q hr hq s
    obtain ⟨read, beh, wl, wb⟩ := env
    simp only at hr
    subst hr
    rcases wl with _ | _ <;> simp [runStep, hq]
  · intro env s hr hq
    obtain ⟨read, beh, wl, wb⟩ := env
    simp only at hr
    subst hr
    simp only [runStep, hq, if_false, List.dropLast_concat]
    rcases hx : executeQuery dbType beh s with _ | result
    · exact ⟨[.fatalAbort], rfl⟩
    · rcases wl with _ | _
      · exact ⟨_, rfl⟩
      · rcases wb with _ | _
        · exact ⟨_, rfl⟩
        · exact ⟨_, rfl⟩

/-- C10 (witness): concrete instances — two batch-sync lines with
different tails and different backend behaviours take the same step, the
batch-sync step executes nothing, and the statement line `"S\n"` is
executed as the statement `"S"`. -/
theorem c10_classification_witness :
    runStep DriverSQLite marshal0 syncOkStep =
      runStep DriverSQLite marshal0 ⟨.line [gsChar, 'x', '\n'], scanFailBehavior, true, true⟩ ∧
    (∀ s, Event.execQuery s ∉ (runStep DriverSQLite marshal0 syncOkStep).1) ∧
    ∃ evs, (runStep DriverSQLite marshal0 stmtStep).1 = Event.execQuery ['S'] :: evs :=
  ⟨(c10_classification DriverSQLite marshal0).1 syncOkStep
      ⟨.line [gsChar, 'x', '\n'], scanFailBehavior, true, true⟩
      [gsChar, '\n'] [gsChar, 'x', '\n'] rfl rfl (by decide) (by decide) rfl rfl,
   fun s => (c10_classification DriverSQLite marshal0).2.1 syncOkStep
      [gsChar, '\n'] rfl (by decide) s,
   (c10_classification DriverSQLite marshal0).2.2 stmtStep ['S'] rfl (by decide)⟩

/-! ## C4: loop termination on I/O errors -/

/-- C4 (counterexample): the claim that *every* I/O error ends the loop —
"including an error while writing the 1-byte batch-sync payload" — is
false: the code never inspects the result of `conn.Write` for that one
byte.  In this concrete run the sync payload write fails
(`wroteAttempt [29] false`) and the handler nevertheless goes on to
execute the next command (`execQuery ['S']`). -/
theorem c4_counterexample :
    runLoop DriverSQLite marshal0 [syncFailStep, stmtStep] =
      [.wroteAttempt [0, 0, 0, 1] true, .wroteAttempt [29] false,
       .execQuery ['S'], .wroteAttempt [0, 0, 0, 0] true,
       .wroteAttempt [] true] := by
  decide

/-- C4 (amended): after a read I/O error, or a failure of either of the
*checked* writes (the 4-byte length prefix of any frame, or a statement
response's payload), the handler processes no further command: the trace
of the whole remaining run is exactly the failing iteration's trace,
whatever commands follow; and EOF on read closes gracefully.  The one
exception, forced by the counterexample, is an error on the 1-byte
batch-sync payload write, which the code ignores: the loop continues. -/
theorem c4_loop_termination (dbType : Nat) (marshal : QueryResult → List Nat)
    (env : StepEnv) (rest : List StepEnv) :
    (env.read = .ioErr →
      runLoop dbType marshal (env :: rest) = [.closedError]) ∧
    (env.read = .eof →
      runLoop dbType marshal (env :: rest) = [.closedGraceful]) ∧
    (∀ q, env.read = .line q → env.writeLenOk = false →
      runLoop dbType marshal (env :: rest) = (runStep dbType marshal env).1) ∧
    (∀ q, env.read = .line q → q.head? ≠ some gsChar →
      env.writeBodyOk = false →
      runLoop dbType marshal (env :: rest) = (runStep dbType marshal env).1) := by
  refine ⟨?_, ?_, ?_, ?_⟩
  · intro hr
    obtain ⟨read, beh, wl, wb⟩ := env
    simp only at hr
    subst hr
    simp [runLoop, runStep]
  · intro hr
    obtain ⟨read, beh, wl, wb⟩ := env
    simp only at hr
    subst hr
    simp [runLoop, runStep]
  · intro q hr hwl
    obtain ⟨read, beh, wl, wb⟩ := env
    simp only at hr hwl
    subst hr hwl
    have hstop : (runStep dbType marshal ⟨.line q, beh, false, wb⟩).2 = false := by
      by_cases hq : q.head? = some gsChar
      · simp [runStep, hq]
      · rcases hx : executeQuery dbType beh q.dropLast with _ | result <;>
          simp [runStep, hq, hx]
    simp [runLoop, hstop]
  · intro q hr hq hwb
    obtain ⟨read, beh, wl, wb⟩ := env
    simp only at hr hwb
    subst hr hwb
    have hstop : (runStep dbType marshal ⟨.line q, beh, wl, false⟩).2 = false := by
      rcases hx : executeQuery dbType beh q.dropLast with _ | result <;>
        rcases wl with _ | _ <;> simp [runStep, hq, hx]
    simp [runLoop, hstop]

/-- C4 (witness): the amended termination law on concrete runs — a read
error, an EOF, a failing length write under a batch-sync line, and a
failing response-body write under a statement line, each followed by a
pending statement that is never reached. -/
theorem c4_loop_termination_witness :
    runLoop DriverSQLite marshal0 [⟨.ioErr, trivBehavior, true, true⟩, stmtStep] =
      [.closedError] ∧
    runLoop DriverSQLite marshal0 [⟨.eof, trivBehavior, true, true⟩, stmtStep] =
      [.closedGraceful] ∧
    runLoop DriverSQLite marshal0 [⟨.line [gsChar, '\n'], trivBehavior, false, true⟩, stmtStep] =
      (runStep DriverSQLite marshal0 ⟨.line [gsChar, '\n'], trivBehavior, false, true⟩).1 ∧
    runLoop DriverSQLite marshal0 [⟨.line ['S', '\n'], trivBehavior, true, false⟩, stmtStep] =
      (runStep DriverSQLite marshal0 ⟨.line ['S', '\n'], trivBehavior, true, false⟩).1 :=
  ⟨(c4_loop_termination DriverSQLite marshal0 ⟨.ioErr, trivBehavior, true, true⟩
      [stmtStep]).1 rfl,
   (c4_loop_termination DriverSQLite marshal0 ⟨.eof, trivBehavior, true, true⟩
      [stmtStep]).2.1 rfl,
   (c4_loop_termination DriverSQLite marshal0
      ⟨.line [gsChar, '\n'], trivBehavior, false, true⟩ [stmtStep]).2.2.1
      [gsChar, '\n'] rfl rfl,
   (c4_loop_termination DriverSQLite marshal0
      ⟨.line ['S', '\n'], trivBehavior, true, false⟩ [stmtStep]).2.2.2
      ['S', '\n'] rfl (by decide) rfl⟩

/-! ## C6, C9: the backend connector -/

theorem dbDriverTypes_isSome_iff (s : GoStr) :
    (dbDriverTypes s).isSome = true ↔ s ∈ validEngineNames := by
  unfold dbDriverTypes validEngineNames
  split_ifs <;> simp_all

theorem dbDriverTypes_mem_engineDrivers (s : GoStr) (d : Nat)
    (h : dbDriverTypes s = some d) : d ∈ engineDrivers := by
  unfold dbDriverTypes at h
  split_ifs at h <;> simp_all [engineDrivers]

/-- C6: `Connect` resolves the engine name case-insensitively against
exactly the five identifiers `oracle`, `mysql`, `postgres`, `sqlite`,
`sqlserver`: validation succeeds precisely when the lowercased name is in
that set; any other name yields the validation error without `sql.Open`
ever being reached; and whenever `Connect` succeeds, the session's engine
identifier is one of the five driver constants. -/
theorem c6_engine_validation (name : GoStr) (c : Connection) (cs : GoStr)
    (env : ConnectEnv) :
    ((∃ d, ValidateDBType name = .ok d) ↔ goToLower name ∈ validEngineNames) ∧
    (goToLower name ∉ validEngineNames →
      (Connect c name cs env).openAttempted = false ∧
      ∃ e, (Connect c name cs env).res = .error e) ∧
    (∀ u, (Connect c name cs env).res = .ok u →
      (Connect c name cs env).conn.dbType ∈ engineDrivers) := by
  refine ⟨?_, ?_, ?_⟩
  · rw [← dbDriverTypes_isSome_iff]
    unfold ValidateDBType
    cases hd : dbDriverTypes (goToLower name) <;> simp [hd]
  · intro hnot
    have hd : dbDriverTypes (goToLower name) = none := by
      rcases hd : dbDriverTypes (goToLower name) with _ | d
      · rfl
      · exact absurd ((dbDriverTypes_isSome_iff _).mp (by rw [hd]; rfl)) hnot
    unfold Connect ValidateDBType
    rw [hd]
    exact ⟨rfl, _, rfl⟩
  · intro u hok
    unfold Connect at hok ⊢
    rcases hv : ValidateDBType name with e | d
    · rw [hv] at hok; simp at hok
    · have hd : dbDriverTypes (goToLower name) = some d := by
        unfold ValidateDBType at hv
        rcases hd' : dbDriverTypes (goToLower name) with _ | d'
        · rw [hd'] at hv; cases hv
        · rw [hd'] at hv; cases hv; rfl
      rcases ho : env.openRes with e | v
      · rw [hv, ho] at hok; simp at hok
      · rcases hp : env.pingRes with e | w
        · rw [hv, ho, hp] at hok; simp at hok
        · exact dbDriverTypes_mem_engineDrivers _ d hd

/-- C6 (witness): `MySQL` resolves case-insensitively, `nosql` is
rejected before any open attempt, and a successful `oracle` connection
carries one of the five driver constants. -/
theorem c6_engine_validation_witness :
    (∃ d, ValidateDBType "MySQL".data = .ok d) ∧
    ((Connect Connection.zero "nosql".data "x".data envOK).openAttempted = false ∧
      ∃ e, (Connect Connection.zero "nosql".data "x".data envOK).res = .error e) ∧
    (Connect Connection.zero "oracle".data "x".data envOK).conn.dbType ∈ engineDrivers :=
  ⟨(c6_engine_validation "MySQL".data Connection.zero "x".data envOK).1.mpr
      (by decide),
   (c6_engine_validation "nosql".data Connection.zero "x".data envOK).2.1
      (by decide),
   (c6_engine_validation "oracle".data Connection.zero "x".data envOK).2.2
      () rfl⟩

/-- C9: `Connect` is atomic with respect to its receiver: on every failure
path (validation, open, or ping) it returns an error with the receiver's
fields exactly as they were, and on success — which requires both the
open and the ping to have succeeded — the fields hold the live handle,
the resolved driver constant, and the fresh context. -/
theorem c9_connect_atomic (c : Connection) (name cs : GoStr)
    (env : ConnectEnv) :
    (∀ e, (Connect c name cs env).res = .error e →
      (Connect c name cs env).conn = c) ∧
    (∀ u, (Connect c name cs env).res = .ok u →
      env.openRes = .ok () ∧ env.pingRes = .ok () ∧
      ∃ d, ValidateDBType name = .ok d ∧
        (Connect c name cs env).conn = ⟨some (), d, some ()⟩) := by
  constructor
  · intro e herr
    unfold Connect at herr ⊢
    rcases hv : ValidateDBType name with e' | d
    · rfl
    · rcases ho : env.openRes with e' | v
      · rfl
      · rcases hp : env.pingRes with e' | w
        · rfl
        · rw [hv, ho, hp] at herr; simp at herr
  · intro u hok
    unfold Connect at hok ⊢
    rcases hv : ValidateDBType name with e' | d
    · rw [hv] at hok; simp at hok
    · rcases ho : env.openRes with e' | v
      · rw [hv, ho] at hok; simp at hok
      · rcases hp : env.pingRes with e' | w
        · rw [hv, ho, hp] at hok; simp at hok
        · rcases v; rcases w
          exact ⟨rfl, rfl, d, rfl, rfl⟩

/-- C9 (witness): a failed ping leaves a receiver with pre-existing field
values untouched, and a successful `sqlite` connect sets exactly the
resolved driver constant. -/
theorem c9_connect_atomic_witness :
    (Connect ⟨none, 3, none⟩ "sqlite".data "f.db".data ⟨.ok (), .error "down".data⟩).conn
      = ⟨none, 3, none⟩ ∧
    envOK.openRes = .ok () ∧ envOK.pingRes = .ok () ∧
    ∃ d, ValidateDBType "sqlite".data = .ok d ∧
      (Connect Connection.zero "sqlite".data "f.db".data envOK).conn
        = ⟨some (), d, some ()⟩ :=
  ⟨(c9_connect_atomic ⟨none, 3, none⟩ "sqlite".data "f.db".data
      ⟨.ok (), .error "down".data⟩).1
      ("failed to ping database: ".data ++ "down".data) rfl,
   (c9_connect_atomic Connection.zero "sqlite".data "f.db".data envOK).2
      () rfl⟩

/-! ## C7: session bootstrap failure responses -/

/-- C7: if the parameter envelope line was read but cannot be decoded, the
handler's whole trace is exactly one error envelope reading
`Invalid connection parameters`; if it decodes but the connector fails,
the whole trace is exactly one error envelope reading
`Failed to connect to database`.  In both cases the trace is independent
of any commands the client may have pipelined: nothing is retried and the
command loop is never entered. -/
theorem c7_bootstrap_errors (marshal : QueryResult → List Nat)
    (benv : BootEnv) (steps : List StepEnv) (s : GoStr) :
    (benv.paramsRead = .line s → benv.decodeRes = none →
      handleTrace marshal benv steps =
        [.sentErrorEnvelope "Invalid connection parameters".data]) ∧
    (∀ params e, benv.paramsRead = .line s → benv.decodeRes = some params →
      (Connect Connection.zero params.dbtype params.connstring
        benv.connectEnv).res = .error e →
      handleTrace marshal benv steps =
        [.sentErrorEnvelope "Failed to connect to database".data]) := by
  constructor
  · intro hr hd
    unfold handleTrace
    rw [hr, hd]
  · intro params e hr hd hc
    unfold handleTrace
    rw [hr, hd]
    dsimp only
    rw [hc]

/-- C7 (witness): an undecodable envelope, and a decodable one naming the
unknown engine `nosql`, each produce exactly their single error frame even
with a statement pipelined behind them. -/
theorem c7_bootstrap_errors_witness :
    handleTrace marshal0 ⟨.line "garbage".data, none, envOK⟩ [stmtStep] =
      [.sentErrorEnvelope "Invalid connection parameters".data] ∧
    handleTrace marshal0
        ⟨.line "x".data, some ⟨"nosql".data, "x".data⟩, envOK⟩ [stmtStep] =
      [.sentErrorEnvelope "Failed to connect to database".data] :=
  ⟨(c7_bootstrap_errors marshal0 ⟨.line "garbage".data, none, envOK⟩
      [stmtStep] "garbage".data).1 rfl rfl,
   (c7_bootstrap_errors marshal0
      ⟨.line "x".data, some ⟨"nosql".data, "x".data⟩, envOK⟩
      [stmtStep] "x".data).2 ⟨"nosql".data, "x".data⟩
      ("invalid database type: ".data ++ "nosql".data) rfl rfl rfl⟩

end Sqlrepl
